import Mathlib

/-!
Verification of the Hub FVM API client
(`crates/fluvio-hub-util/src/fvm/api/client.rs`).

The client logic (`Client::new`, `Client::make_fetch_package_set_url`,
`Client::fetch_package_set`) is embedded directly from the source.  The
external collaborators the source leans on — the `url` crate's parser, the
`semver` version type, `serde_json` decoding, and the `Channel` /
`PackageSet` / `PackageSetRecord` types from the surrounding crate — are
modelled from the specification, as marked on each definition.
-/

namespace FvmApi

/-- Character allowed inside a URL scheme after the first one:
ASCII alphanumeric or one of `+`, `-`, `.`. -/
def isSchemeChar (c : Char) : Bool :=
  c.isAlphanum || c = '+' || c = '-' || c = '.'

/-- Tail of a scheme: some run of scheme characters terminated by a colon. -/
def schemeRest : List Char → Bool
  | [] => false
  | c :: rest => if c = ':' then true else isSchemeChar c && schemeRest rest

/-- Modelled from the spec: the `url` crate collaborator is out of scope and
described only as "parse a string into an absolute URL".  A string is a
syntactically valid absolute URL when it starts with a scheme — an ASCII
letter followed by scheme characters — and a colon. -/
def isValidAbsoluteUrl (s : String) : Bool :=
  match s.data with
  | [] => false
  | c :: rest => c.isAlpha && schemeRest rest

/-- Modelled from the spec: a parsed absolute URL, stored verbatim with no
normalization (spec section 4.1: "store verbatim — no normalization, no
trailing-slash handling"). -/
structure Url where
  raw : String
deriving DecidableEq, Repr

/-- Modelled from the spec: parsing a string as an absolute URL succeeds
exactly on syntactically valid absolute URLs and keeps the string verbatim. -/
def Url.parse (s : String) : Option Url :=
  if isValidAbsoluteUrl s then some ⟨s⟩ else none

/-- Serialized form of a URL: the stored string itself (no normalization). -/
def Url.render (u : Url) : String := u.raw

/-- Modelled from the spec: a semantic version (external `semver` crate),
whose canonical string form is `major.minor.patch` with an optional `-pre`
and `+build` suffix. -/
structure Version where
  major : Nat
  minor : Nat
  patch : Nat
  pre : String
  build : String
deriving DecidableEq, Repr

/-- Canonical string form of a semantic version. -/
def Version.render (v : Version) : String :=
  toString v.major ++ "." ++ toString v.minor ++ "." ++ toString v.patch
    ++ (if v.pre = "" then "" else "-" ++ v.pre)
    ++ (if v.build = "" then "" else "+" ++ v.build)

/-- Modelled from the spec: the `Channel` selector defined outside this core —
one of `Stable`, `Latest`, `Tag(semantic version)`, `Other(arbitrary string)`
(spec section 3), matched exhaustively at the URL-building site. -/
inductive Channel where
  | Stable
  | Latest
  | Tag (v : Version)
  | Other (s : String)
deriving DecidableEq, Repr

/-- JSON values, as produced by the external JSON decoder collaborator. -/
inductive Json where
  | null
  | bool (b : Bool)
  | num (n : Int)
  | str (s : String)
  | arr (items : List Json)
  | obj (fields : List (String × Json))

/-- Modelled from the spec: a raw manifest entry; its fields are owned by the
external manifest schema, so it is kept as the undecoded JSON object fields
(spec section 3: "fields unspecified here — owned by the manifest schema"). -/
structure PackageSetRecord where
  fields : List (String × Json)

/-- Modelled from the spec: the resolved domain representation produced by the
total conversion from a `PackageSetRecord` (spec section 4.3: "Conversion is
assumed total"). -/
structure PackageSet where
  record : PackageSetRecord

/-- Modelled from the spec: the total `PackageSetRecord` → `PackageSet`
conversion applied by `.into()` in the source. -/
def PackageSetRecord.toPackageSet (r : PackageSetRecord) : PackageSet :=
  ⟨r⟩

/-- The structured error envelope of a non-success response: numeric `status`
and human-readable `message` (source struct `ApiError`). -/
structure ApiError where
  status : Nat
  message : String
deriving DecidableEq, Repr

/-- The error kinds of the client, one constructor per distinct failure site
in the source (each site produces its own distinct `anyhow` message), named
per the spec's taxonomy in section 7. -/
inductive FetchError where
  | InvalidUrl
  | UrlBuild
  | Transport (msg : String)
  | MalformedManifest
  | ArchitectureNotFound (arch : String)
  | ServerError (status : Nat)
  | Remote (message : String)
deriving DecidableEq, Repr

/-- An HTTP response as exposed by the transport collaborator: a status code
and a body; `none` stands for a body that is not valid JSON at all. -/
structure Response where
  status : Nat
  body : Option Json

/-- Whether a status code indicates success: 2xx, per
`http::StatusCode::is_success`. -/
def isSuccess (status : Nat) : Bool :=
  200 ≤ status && status < 300

/-- First binding of a key in a JSON object's field list. -/
def jsonLookup (fields : List (String × Json)) (key : String) : Option Json :=
  match fields with
  | [] => none
  | (k, v) :: rest => if k = key then some v else jsonLookup rest key

/-- Decoding one manifest value as a `PackageSetRecord`: any JSON object
(the record's own schema is external). -/
def decodeRecord : Json → Option PackageSetRecord
  | Json.obj fields => some ⟨fields⟩
  | _ => none

/-- Decoding every entry of a manifest object; any entry failing to decode
fails the whole manifest, as serde does for `HashMap<String, _>`. -/
def decodeManifestEntries : List (String × Json) → Option (List (String × PackageSetRecord))
  | [] => some []
  | (k, v) :: rest =>
    match decodeRecord v, decodeManifestEntries rest with
    | some r, some m => some ((k, r) :: m)
    | _, _ => none

/-- Decoding a response body as `HashMap<String, PackageSetRecord>`: the body
must be JSON and a JSON object, every value decoding as a record. -/
def decodeManifest : Option Json → Option (List (String × PackageSetRecord))
  | some (Json.obj fields) => decodeManifestEntries fields
  | _ => none

/-- Lookup in the decoded manifest.  The source builds a `HashMap` by
successive insertion (a repeated key overwrites), so the last binding of a
key is the one `get` observes; lookup is exact string equality. -/
def lookupArch (m : List (String × PackageSetRecord)) (arch : String) :
    Option PackageSetRecord :=
  match m with
  | [] => none
  | (k, r) :: rest =>
    match lookupArch rest arch with
    | some r2 => some r2
    | none => if k = arch then some r else none

/-- Decoding a u16 from a JSON value. -/
def decodeU16 : Json → Option Nat
  | Json.num n => if 0 ≤ n ∧ n < 65536 then some n.toNat else none
  | _ => none

/-- Decoding a response body as the `ApiError` envelope: a JSON object with a
numeric `status` field and a string `message` field. -/
def decodeApiError : Option Json → Option ApiError
  | some (Json.obj fields) =>
    (match jsonLookup fields "status", jsonLookup fields "message" with
     | some js, some (Json.str m) =>
       (match decodeU16 js with
        | some s => some ⟨s, m⟩
        | none => none)
     | _, _ => none)
  | _ => none

/-- HTTP Client for interacting with the Hub FVM API: holds the validated
base URL (source field `api_url`). -/
structure Client where
  api_url : Url
deriving DecidableEq, Repr

/-- Creates a new `Client` from a base URL string (source `Client::new`):
parse the string as an absolute URL and store it; a parse failure is the
`InvalidUrl` error. -/
def Client.new (url : String) : Except FetchError Client :=
  match Url.parse url with
  | some api_url => Except.ok ⟨api_url⟩
  | none => Except.error FetchError.InvalidUrl

/-- The version path segment chosen for each channel variant (the `version`
binding in source `make_fetch_package_set_url`). -/
def channelVersionSegment : Channel → String
  | Channel.Stable => "stable"
  | Channel.Latest => "latest"
  | Channel.Tag v => "v" ++ v.render
  | Channel.Other s => s

/-- Builds the URL to fetch a `PackageSet` manifest (source
`Client::make_fetch_package_set_url`): formats
`{api_url}/releases/download/{version}/manifest.json` and re-parses it,
propagating a parse failure. -/
def Client.make_fetch_package_set_url (c : Client) (channel : Channel) :
    Except FetchError Url :=
  match Url.parse
      (c.api_url.render ++ "/releases/download/"
        ++ channelVersionSegment channel ++ "/manifest.json") with
  | some url => Except.ok url
  | none => Except.error FetchError.UrlBuild

/-- Fetches a `PackageSet` for a channel and architecture (source
`Client::fetch_package_set`).  The HTTP transport is passed explicitly: one
GET at the resolved URL yields either a transport failure or a `Response`.
On a success status the body is decoded as the architecture-keyed manifest
and the entry for `arch` selected and converted; on a non-success status the
body is decoded as an `ApiError` envelope whose message is surfaced. -/
def Client.fetch_package_set (c : Client) (channel : Channel) (arch : String)
    (transport : Url → Except String Response) : Except FetchError PackageSet :=
  match c.make_fetch_package_set_url channel with
  | Except.error e => Except.error e
  | Except.ok url =>
    match transport url with
    | Except.error err => Except.error (FetchError.Transport err)
    | Except.ok res =>
      if isSuccess res.status then
        match decodeManifest res.body with
        | none => Except.error FetchError.MalformedManifest
        | some manifest =>
          match lookupArch manifest arch with
          | none => Except.error (FetchError.ArchitectureNotFound arch)
          | some pkgset_record => Except.ok pkgset_record.toPackageSet
      else
        match decodeApiError res.body with
        | none => Except.error (FetchError.ServerError res.status)
        | some error => Except.error (FetchError.Remote error.message)

/-- ASCII lower-casing of one character, for stating case-insensitivity
properties about manifest keys. -/
def asciiLower (c : Char) : Char :=
  if c.isUpper then Char.ofNat (c.toNat + 32) else c

/-- ASCII lower-casing of a whole key. -/
def lowerKey (s : String) : String :=
  ⟨s.data.map asciiLower⟩

/-- Drops leading space characters. -/
def dropLeadingSpaces : List Char → List Char
  | [] => []
  | c :: rest => if c = ' ' then dropLeadingSpaces rest else c :: rest

/-- Strips surrounding space characters from a key, for stating
whitespace-sensitivity properties about manifest keys. -/
def trimKey (s : String) : String :=
  ⟨(dropLeadingSpaces (dropLeadingSpaces s.data).reverse).reverse⟩

/-! Helper lemmas shared by the claim theorems. -/

/-- Unfolding `fetch_package_set` once the URL build succeeded and the
transport returned a response: the remainder is the two-branch response
handler from the source. -/
theorem fetch_package_set_response (c : Client) (channel : Channel) (arch : String)
    (t : Url → Except String Response) (u : Url) (res : Response)
    (hurl : c.make_fetch_package_set_url channel = Except.ok u)
    (ht : ∀ x, t x = Except.ok res) :
    c.fetch_package_set channel arch t =
      if isSuccess res.status then
        match decodeManifest res.body with
        | none => Except.error FetchError.MalformedManifest
        | some manifest =>
          match lookupArch manifest arch with
          | none => Except.error (FetchError.ArchitectureNotFound arch)
          | some pkgset_record => Except.ok pkgset_record.toPackageSet
      else
        match decodeApiError res.body with
        | none => Except.error (FetchError.ServerError res.status)
        | some error => Except.error (FetchError.Remote error.message) := by
  unfold Client.fetch_package_set
  rw [hurl]
  dsimp only
  rw [ht u]

/-- A list whose scheme run already reaches a colon still does after any
suffix is appended. -/
theorem schemeRest_append (l m : List Char) (h : schemeRest l = true) :
    schemeRest (l ++ m) = true := by
  induction l with
  | nil => simp [schemeRest] at h
  | cons c rest ih =>
    simp only [schemeRest, List.cons_append] at h ⊢
    by_cases hc : c = ':'
    · simp [hc]
    · simp only [if_neg hc] at h ⊢
      rcases Bool.and_eq_true_iff.mp h with ⟨h1, h2⟩
      exact Bool.and_eq_true_iff.mpr ⟨h1, ih h2⟩

/-- Appending a suffix to a syntactically valid absolute URL keeps it
syntactically valid: the scheme prefix is untouched. -/
theorem isValidAbsoluteUrl_append (s t : String) (h : isValidAbsoluteUrl s = true) :
    isValidAbsoluteUrl (s ++ t) = true := by
  unfold isValidAbsoluteUrl at h ⊢
  rw [String.data_append]
  cases hd : s.data with
  | nil => rw [hd] at h; simp at h
  | cons c rest =>
    rw [hd] at h
    rcases Bool.and_eq_true_iff.mp h with ⟨h1, h2⟩
    simp only [List.cons_append]
    exact Bool.and_eq_true_iff.mpr ⟨h1, schemeRest_append rest t.data h2⟩

/-- A key absent from every entry of the decoded manifest is not found. -/
theorem lookupArch_eq_none (m : List (String × PackageSetRecord)) (arch : String)
    (h : ∀ p ∈ m, p.1 ≠ arch) : lookupArch m arch = none := by
  induction m with
  | nil => rfl
  | cons p rest ih =>
    obtain ⟨k, r⟩ := p
    have hk : k ≠ arch := h (k, r) (List.mem_cons_self _ _)
    have hrest : lookupArch rest arch = none :=
      ih fun q hq => h q (List.mem_cons_of_mem _ hq)
    simp [lookupArch, hrest, hk]

/-- A client accepted by `Client.new` holds the input string as its URL. -/
theorem client_new_ok_elim (s : String) (c : Client)
    (h : Client.new s = Except.ok c) : c = ⟨⟨s⟩⟩ := by
  unfold Client.new Url.parse at h
  by_cases hv : isValidAbsoluteUrl s = true
  · rw [if_pos hv] at h
    exact (Except.ok.injEq _ _ |>.mp h.symm) ▸ rfl
  · rw [if_neg hv] at h
    exact absurd h (by simp)

/-! Claim theorems. -/

/-- C7: `Client::new` returns Ok for every syntactically valid absolute URL
string and the `InvalidUrl` error for every other string — in particular for
the empty string and for a string with no scheme; construction is a pure
function of the input (no network access). -/
theorem client_new_ok_iff_valid (s : String) :
    (isValidAbsoluteUrl s = true → ∃ c, Client.new s = Except.ok c) ∧
    (isValidAbsoluteUrl s = false → Client.new s = Except.error FetchError.InvalidUrl) ∧
    Client.new "" = Except.error FetchError.InvalidUrl ∧
    Client.new "github.com/fluvio-community/fluvio" = Except.error FetchError.InvalidUrl := by
  refine ⟨fun hv => ⟨⟨⟨s⟩⟩, ?_⟩, fun hv => ?_, ?_, ?_⟩
  · unfold Client.new Url.parse
    rw [if_pos hv]
  · unfold Client.new Url.parse
    rw [if_neg (by simp [hv])]
  · rfl
  · rfl

/-- C7 witness: the valid GitHub base URL is accepted and the empty string is
rejected with `InvalidUrl`. -/
theorem client_new_ok_iff_valid_witness :
    (∃ c, Client.new "https://github.com/fluvio-community/fluvio" = Except.ok c) ∧
    Client.new "" = Except.error FetchError.InvalidUrl :=
  ⟨(client_new_ok_iff_valid "https://github.com/fluvio-community/fluvio").1 (by decide),
   (client_new_ok_iff_valid "").2.1 (by decide)⟩

/-- C8: every string accepted by `Client.new` is stored verbatim — the stored
`api_url` serializes back to exactly the input string. -/
theorem client_new_stores_verbatim (s : String) (c : Client)
    (h : Client.new s = Except.ok c) : c.api_url.render = s := by
  rw [client_new_ok_elim s c h]
  rfl

/-- C8 witness: the GitHub base URL round-trips verbatim through
construction. -/
theorem client_new_stores_verbatim_witness :
    (Client.mk ⟨"https://github.com/fluvio-community/fluvio"⟩).api_url.render
      = "https://github.com/fluvio-community/fluvio" :=
  client_new_stores_verbatim "https://github.com/fluvio-community/fluvio" ⟨⟨"https://github.com/fluvio-community/fluvio"⟩⟩ rfl

/-- C2: for a client built from a syntactically valid absolute base URL, the
URL builder returns Ok of exactly
`{api_url}/releases/download/{segment}/manifest.json`, where the segment is
`stable` for Stable, `latest` for Latest, `v` plus the canonical version
string for Tag, and the contained string verbatim for Other. -/
theorem make_fetch_package_set_url_shape (s : String) (c : Client) (channel : Channel)
    (hv : isValidAbsoluteUrl s = true)
    (hc : Client.new s = Except.ok c) :
    c.make_fetch_package_set_url channel =
      Except.ok ⟨s ++ "/releases/download/" ++ channelVersionSegment channel
        ++ "/manifest.json"⟩ := by
  rw [client_new_ok_elim s c hc]
  unfold Client.make_fetch_package_set_url Url.parse Url.render
  rw [if_pos
    (isValidAbsoluteUrl_append _ "/manifest.json"
      (isValidAbsoluteUrl_append _ (channelVersionSegment channel)
        (isValidAbsoluteUrl_append s "/releases/download/" hv)))]

/-- C2 witness: with base URL `https://github.com/fluvio-community/fluvio`,
`Channel.Stable` yields the exact stable manifest URL. -/
theorem make_fetch_package_set_url_shape_witness :
    (Client.mk ⟨"https://github.com/fluvio-community/fluvio"⟩).make_fetch_package_set_url
        Channel.Stable =
      Except.ok ⟨"https://github.com/fluvio-community/fluvio/releases/download/stable/manifest.json"⟩ :=
  make_fetch_package_set_url_shape "https://github.com/fluvio-community/fluvio"
    ⟨⟨"https://github.com/fluvio-community/fluvio"⟩⟩ Channel.Stable (by decide) rfl

/-- C9: the URL builder is deterministic — two calls with identical inputs
agree — and, given a transport that returns the same response on every URL
across both calls (an unchanged server), two `fetch_package_set` calls with
identical channel and arch produce identical results. -/
theorem fetch_package_set_deterministic (c : Client) (channel : Channel) (arch : String)
    (t1 t2 : Url → Except String Response)
    (h : ∀ u, t1 u = t2 u) :
    c.make_fetch_package_set_url channel = c.make_fetch_package_set_url channel ∧
    c.fetch_package_set channel arch t1 = c.fetch_package_set channel arch t2 := by
  refine ⟨rfl, ?_⟩
  unfold Client.fetch_package_set
  cases c.make_fetch_package_set_url channel with
  | error e => rfl
  | ok url =>
    dsimp only
    rw [h url]

/-- C9 witness: two fetches through two transports that agree pointwise on a
concrete 404 response coincide. -/
theorem fetch_package_set_deterministic_witness :
    (Client.mk ⟨"https://github.com/fluvio-community/fluvio"⟩).fetch_package_set
        Channel.Stable "x86_64" (fun _ => Except.ok ⟨404, none⟩) =
      (Client.mk ⟨"https://github.com/fluvio-community/fluvio"⟩).fetch_package_set
        Channel.Stable "x86_64" (fun _ => Except.ok ⟨404, none⟩) :=
  (fetch_package_set_deterministic ⟨⟨"https://github.com/fluvio-community/fluvio"⟩⟩
    Channel.Stable "x86_64" _ _ (fun _ => rfl)).2

/-- C1: on a success-status response whose body decodes as the
architecture-keyed manifest and whose mapping binds `arch` to a record, the
fetch returns Ok of exactly that record's conversion; the result mentions
only the looked-up record, so the other entries of the map cannot affect
it. -/
theorem fetch_package_set_success_selects_arch (c : Client) (channel : Channel)
    (arch : String) (t : Url → Except String Response) (u : Url) (res : Response)
    (m : List (String × PackageSetRecord)) (r : PackageSetRecord)
    (hurl : c.make_fetch_package_set_url channel = Except.ok u)
    (ht : ∀ x, t x = Except.ok res)
    (hs : isSuccess res.status = true)
    (hm : decodeManifest res.body = some m)
    (hl : lookupArch m arch = some r) :
    c.fetch_package_set channel arch t = Except.ok r.toPackageSet := by
  rw [fetch_package_set_response c channel arch t u res hurl ht, if_pos hs, hm]
  dsimp only
  rw [hl]

/-- C1 witness: a mocked success response with body
`{"x86_64": {}}` and `arch = "x86_64"` yields the converted record. -/
theorem fetch_package_set_success_selects_arch_witness :
    (Client.mk ⟨"https://github.com/fluvio-community/fluvio"⟩).fetch_package_set
        Channel.Stable "x86_64"
        (fun _ => Except.ok ⟨200, some (Json.obj [("x86_64", Json.obj [])])⟩) =
      Except.ok (PackageSetRecord.mk []).toPackageSet :=
  fetch_package_set_success_selects_arch _ Channel.Stable "x86_64" _
    ⟨"https://github.com/fluvio-community/fluvio/releases/download/stable/manifest.json"⟩
    ⟨200, some (Json.obj [("x86_64", Json.obj [])])⟩
    [("x86_64", ⟨[]⟩)] ⟨[]⟩ rfl (fun _ => rfl) rfl rfl rfl

/-- C3: on a success-status response whose body decodes as the manifest
mapping but binds no entry for `arch`, the fetch fails with
`ArchitectureNotFound` carrying the requested arch, an error distinct from
`MalformedManifest`. -/
theorem fetch_package_set_arch_not_found (c : Client) (channel : Channel)
    (arch : String) (t : Url → Except String Response) (u : Url) (res : Response)
    (m : List (String × PackageSetRecord))
    (hurl : c.make_fetch_package_set_url channel = Except.ok u)
    (ht : ∀ x, t x = Except.ok res)
    (hs : isSuccess res.status = true)
    (hm : decodeManifest res.body = some m)
    (hl : lookupArch m arch = none) :
    c.fetch_package_set channel arch t
        = Except.error (FetchError.ArchitectureNotFound arch) ∧
      FetchError.ArchitectureNotFound arch ≠ FetchError.MalformedManifest := by
  refine ⟨?_, by simp⟩
  rw [fetch_package_set_response c channel arch t u res hurl ht, if_pos hs, hm]
  dsimp only
  rw [hl]

/-- C3 witness: a mocked success response with body `{"x86_64": {}}` and
`arch = "aarch64"` fails with `ArchitectureNotFound "aarch64"`. -/
theorem fetch_package_set_arch_not_found_witness :
    (Client.mk ⟨"https://github.com/fluvio-community/fluvio"⟩).fetch_package_set
        Channel.Stable "aarch64"
        (fun _ => Except.ok ⟨200, some (Json.obj [("x86_64", Json.obj [])])⟩) =
      Except.error (FetchError.ArchitectureNotFound "aarch64") :=
  (fetch_package_set_arch_not_found ⟨⟨"https://github.com/fluvio-community/fluvio"⟩⟩
    Channel.Stable "aarch64"
    (fun _ => Except.ok ⟨200, some (Json.obj [("x86_64", Json.obj [])])⟩)
    ⟨"https://github.com/fluvio-community/fluvio/releases/download/stable/manifest.json"⟩
    ⟨200, some (Json.obj [("x86_64", Json.obj [])])⟩
    [("x86_64", ⟨[]⟩)] rfl (fun _ => rfl) rfl rfl rfl).1

/-- C4: on a non-success-status response whose body decodes as the
`ApiError` envelope, the fetch fails with `Remote` carrying the envelope's
message verbatim; the envelope's numeric status does not appear in the
surfaced error. -/
theorem fetch_package_set_remote_error (c : Client) (channel : Channel)
    (arch : String) (t : Url → Except String Response) (u : Url) (res : Response)
    (e : ApiError)
    (hurl : c.make_fetch_package_set_url channel = Except.ok u)
    (ht : ∀ x, t x = Except.ok res)
    (hs : isSuccess res.status = false)
    (he : decodeApiError res.body = some e) :
    c.fetch_package_set channel arch t = Except.error (FetchError.Remote e.message) := by
  rw [fetch_package_set_response c channel arch t u res hurl ht,
    if_neg (by simp [hs]), he]

/-- C4 witness: a mocked non-2xx response with body
`{"status":404,"message":"not found"}` fails with `Remote "not found"`. -/
theorem fetch_package_set_remote_error_witness :
    (Client.mk ⟨"https://github.com/fluvio-community/fluvio"⟩).fetch_package_set
        Channel.Stable "x86_64"
        (fun _ => Except.ok ⟨404,
          some (Json.obj [("status", Json.num 404), ("message", Json.str "not found")])⟩) =
      Except.error (FetchError.Remote "not found") :=
  fetch_package_set_remote_error _ Channel.Stable "x86_64" _
    ⟨"https://github.com/fluvio-community/fluvio/releases/download/stable/manifest.json"⟩
    ⟨404, some (Json.obj [("status", Json.num 404), ("message", Json.str "not found")])⟩
    ⟨404, "not found"⟩ rfl (fun _ => rfl) rfl rfl

/-- C5: on a non-success-status response whose body does not decode as the
`ApiError` envelope, the fetch fails with `ServerError` carrying only the
observed numeric status code. -/
theorem fetch_package_set_server_error (c : Client) (channel : Channel)
    (arch : String) (t : Url → Except String Response) (u : Url) (res : Response)
    (hurl : c.make_fetch_package_set_url channel = Except.ok u)
    (ht : ∀ x, t x = Except.ok res)
    (hs : isSuccess res.status = false)
    (he : decodeApiError res.body = none) :
    c.fetch_package_set channel arch t
      = Except.error (FetchError.ServerError res.status) := by
  rw [fetch_package_set_response c channel arch t u res hurl ht,
    if_neg (by simp [hs]), he]

/-- C5 witness: a mocked 500 response with an unparsable body fails with
`ServerError 500`. -/
theorem fetch_package_set_server_error_witness :
    (Client.mk ⟨"https://github.com/fluvio-community/fluvio"⟩).fetch_package_set
        Channel.Stable "x86_64" (fun _ => Except.ok ⟨500, none⟩) =
      Except.error (FetchError.ServerError 500) :=
  fetch_package_set_server_error _ Channel.Stable "x86_64" _
    ⟨"https://github.com/fluvio-community/fluvio/releases/download/stable/manifest.json"⟩
    ⟨500, none⟩ rfl (fun _ => rfl) rfl rfl

/-- C6: on a success-status response whose body does not decode as the
architecture-keyed manifest mapping, the fetch fails with
`MalformedManifest`, distinguishable from every `ArchitectureNotFound`
error. -/
theorem fetch_package_set_malformed_manifest (c : Client) (channel : Channel)
    (arch : String) (t : Url → Except String Response) (u : Url) (res : Response)
    (hurl : c.make_fetch_package_set_url channel = Except.ok u)
    (ht : ∀ x, t x = Except.ok res)
    (hs : isSuccess res.status = true)
    (hm : decodeManifest res.body = none) :
    c.fetch_package_set channel arch t = Except.error FetchError.MalformedManifest ∧
      ∀ a, FetchError.MalformedManifest ≠ FetchError.ArchitectureNotFound a := by
  refine ⟨?_, by simp⟩
  rw [fetch_package_set_response c channel arch t u res hurl ht, if_pos hs, hm]

/-- C6 witness: a mocked success response whose body is a bare string fails
with `MalformedManifest`. -/
theorem fetch_package_set_malformed_manifest_witness :
    (Client.mk ⟨"https://github.com/fluvio-community/fluvio"⟩).fetch_package_set
        Channel.Stable "x86_64"
        (fun _ => Except.ok ⟨200, some (Json.str "oops")⟩) =
      Except.error FetchError.MalformedManifest :=
  (fetch_package_set_malformed_manifest ⟨⟨"https://github.com/fluvio-community/fluvio"⟩⟩
    Channel.Stable "x86_64" (fun _ => Except.ok ⟨200, some (Json.str "oops")⟩)
    ⟨"https://github.com/fluvio-community/fluvio/releases/download/stable/manifest.json"⟩
    ⟨200, some (Json.str "oops")⟩ rfl (fun _ => rfl) rfl rfl).1

/-- C10: the architecture lookup is exact, case-sensitive string equality
with no trimming: when a success-status response's decoded mapping holds a
key that differs from `arch` only in letter case or surrounding whitespace,
while no entry's key equals `arch` itself, the fetch fails with
`ArchitectureNotFound` instead of matching that key. -/
theorem fetch_package_set_lookup_exact (c : Client) (channel : Channel)
    (arch : String) (t : Url → Except String Response) (u : Url) (res : Response)
    (m : List (String × PackageSetRecord)) (k : String) (r : PackageSetRecord)
    (hurl : c.make_fetch_package_set_url channel = Except.ok u)
    (ht : ∀ x, t x = Except.ok res)
    (hs : isSuccess res.status = true)
    (hm : decodeManifest res.body = some m)
    (hmem : (k, r) ∈ m)
    (hne : k ≠ arch)
    (hnear : lowerKey k = lowerKey arch ∨ trimKey k = trimKey arch)
    (habsent : ∀ p ∈ m, p.1 ≠ arch) :
    c.fetch_package_set channel arch t
      = Except.error (FetchError.ArchitectureNotFound arch) := by
  rw [fetch_package_set_response c channel arch t u res hurl ht, if_pos hs, hm]
  dsimp only
  rw [lookupArch_eq_none m arch habsent]

/-- C10 witness: a manifest holding only the key `X86_64` does not satisfy a
lookup for `x86_64`; the fetch fails with `ArchitectureNotFound`. -/
theorem fetch_package_set_lookup_exact_witness :
    (Client.mk ⟨"https://github.com/fluvio-community/fluvio"⟩).fetch_package_set
        Channel.Stable "x86_64"
        (fun _ => Except.ok ⟨200, some (Json.obj [("X86_64", Json.obj [])])⟩) =
      Except.error (FetchError.ArchitectureNotFound "x86_64") :=
  fetch_package_set_lookup_exact _ Channel.Stable "x86_64" _
    ⟨"https://github.com/fluvio-community/fluvio/releases/download/stable/manifest.json"⟩
    ⟨200, some (Json.obj [("X86_64", Json.obj [])])⟩
    [("X86_64", ⟨[]⟩)] "X86_64" ⟨[]⟩
    rfl (fun _ => rfl) rfl rfl (by simp) (by decide) (Or.inl (by decide)) (by decide)

end FvmApi
